import Mathlib

/-!
Verification of pycairo `src/cairo/error.c`: the status-code-to-exception
translation layer (`Pycairo_Check_Status`, `set_error`, `status_to_string`,
`error_get_type_combined`) and the structured exception type
(`error_init`, `error_str`, `error_get_status`, `error_set_status`).

The C code is shallowly embedded: the CPython pending-exception slot becomes
an explicit `PyState` threaded through the functions, CPython type objects
become the inductive `PyTypeId`, Python values reachable from this code
become `PyValue`, and calls into the host runtime that can fail (allocation,
dynamic type construction, exception instantiation) are driven by explicit
success flags in a `CEnv` record.  A reachable NULL-pointer dereference
(undefined behavior in the C) is modelled as the `CResult.undef` outcome.
-/

namespace PycairoSpec

/-! ### cairo status codes

`cairo_status_t` is a C enum; the codes distinguished by `error.c` are
listed with their numeric values from cairo.h (SUCCESS = 0, NO_MEMORY = 1,
INVALID_RESTORE = 2, INVALID_POP_GROUP = 3, ..., READ_ERROR = 10,
WRITE_ERROR = 11).  All other codes take the `default` branch of the switch.
-/

def CAIRO_STATUS_SUCCESS : Nat := 0

def CAIRO_STATUS_NO_MEMORY : Nat := 1

def CAIRO_STATUS_INVALID_RESTORE : Nat := 2

def CAIRO_STATUS_INVALID_POP_GROUP : Nat := 3

def CAIRO_STATUS_READ_ERROR : Nat := 10

def CAIRO_STATUS_WRITE_ERROR : Nat := 11

/-! ### Host type objects

The type objects that `error.c` touches: the library error type
`PycairoError_Type` (its `tp_base` is set to `PyExc_Exception` in
`error_get_type`), the builtin exception types it raises or combines with,
and the dynamically synthesized combined type produced by
`error_get_type_combined`, which carries its name and exactly its two bases.
-/

inductive PyTypeId where
  | BaseExceptionType
  | ExceptionType
  | PycairoErrorType
  | MemoryErrorType
  | IOErrorType
  | TypeErrorType
  | Combined (name : String) (base1 : PyTypeId) (base2 : PyTypeId)
deriving DecidableEq, Repr

/-- All ancestors of a type (the type itself plus the reflexive-transitive
closure of its direct bases): `PycairoError_Type.tp_base = PyExc_Exception`
(set in `error_get_type`); the builtin exception types derive from
`Exception`, which derives from `BaseException`; a combined type has
exactly its two recorded bases. -/
def ancestors : PyTypeId → List PyTypeId
  | .BaseExceptionType => [.BaseExceptionType]
  | .ExceptionType => [.ExceptionType, .BaseExceptionType]
  | .PycairoErrorType => [.PycairoErrorType, .ExceptionType, .BaseExceptionType]
  | .MemoryErrorType => [.MemoryErrorType, .ExceptionType, .BaseExceptionType]
  | .IOErrorType => [.IOErrorType, .ExceptionType, .BaseExceptionType]
  | .TypeErrorType => [.TypeErrorType, .ExceptionType, .BaseExceptionType]
  | .Combined name b1 b2 => .Combined name b1 b2 :: (ancestors b1 ++ ancestors b2)

/-- The CPython subclass relation restricted to the types above: `t` is a
(non-strict) subtype of `u` when `u` occurs in the base-class closure of
`t`.  `isinstance(v, T)` for the objects built in this file is
`isSubtype (type of v) T`. -/
def isSubtype (t u : PyTypeId) : Bool :=
  (ancestors t).contains u

/-! ### Python values -/

/-- The Python values reachable from `error.c`: `Py_None`, ints, strings,
the rich enum value `CREATE_INT_ENUM(Status, code)` produced by the
binding's opaque enum-wrapping utility, and opaque foreign objects
(identified by an id) standing for any other Python object. -/
inductive PyValue where
  | none
  | int (n : Int)
  | str (s : String)
  | statusEnum (code : Nat)
  | obj (id : Nat)
deriving DecidableEq, Repr, Inhabited

/-- Model of the host runtime's `str()` on the values above (external to
the repository; the opaque cases are given a fixed rendering). -/
def pyStr : PyValue → String
  | .none => "None"
  | .int n => toString n
  | .str s => s
  | .statusEnum code => "cairo.Status(" ++ toString code ++ ")"
  | .obj id => "<object " ++ toString id ++ ">"

/-- Model of the host runtime's `repr()` on the values above (external to
the repository; \x27 is the ASCII apostrophe used by string reprs). -/
def pyRepr : PyValue → String
  | .none => "None"
  | .int n => toString n
  | .str s => "\x27" ++ s ++ "\x27"
  | .statusEnum code => "cairo.Status(" ++ toString code ++ ")"
  | .obj id => "<object " ++ toString id ++ ">"

/-- Model of the host runtime's `repr()` of an argument tuple. -/
def pyTupleRepr (vs : List PyValue) : String :=
  "(" ++ String.intercalate ", " (vs.map pyRepr) ++ ")"

/-! ### The structured exception object -/

/-- A `PycairoErrorObject`: the base exception state (`base.args`, here the
stored argument tuple, plus the concrete type the instance was created
with) extended with the one extra managed field `status`. -/
structure PycairoErrorObject where
  ty : PyTypeId
  args : List PyValue
  status : PyValue
deriving DecidableEq, Repr

/-- `BaseException.__init__` (tp_init of `PycairoError_Type.tp_base`):
stores the positional argument tuple verbatim as `self.args`.  Keyword
arguments, the only failure mode, are outside this model. -/
def BaseException_init (args : List PyValue) : List PyValue := args

/-- `BaseException.__str__` (tp_str of `PycairoError_Type.tp_base`):
empty args render as the empty string, a single argument as its `str()`,
and more arguments as the `repr()` of the whole tuple. -/
def BaseException_str (args : List PyValue) : String :=
  match args with
  | [] => ""
  | [v] => pyStr v
  | vs => pyTupleRepr vs

/-- `error_init`: first delegates to the base constructor (which stores the
argument tuple), then sets `status` to `args[1]` when the stored tuple has
at least 2 elements, and to `Py_None` otherwise. -/
def error_init (ty : PyTypeId) (args : List PyValue) : PycairoErrorObject :=
  let stored := BaseException_init args
  if stored.length ≥ 2 then
    { ty := ty, args := stored, status := stored[1]! }
  else
    { ty := ty, args := stored, status := PyValue.none }

/-- `error_str`: when `self.base.args` has at least one element, return
`PyObject_Str` of its first element (just the message); otherwise fall back
to the base exception's own tp_str. -/
def error_str (self : PycairoErrorObject) : String :=
  if self.args.length ≥ 1 then
    pyStr self.args[0]!
  else
    BaseException_str self.args

/-- `error_get_status`: the getter returns the held `status` value. -/
def error_get_status (self : PycairoErrorObject) : PyValue := self.status

/-! ### Pending-exception state -/

/-- A pending exception in the thread state: either an instantiated
exception object (set via `PyErr_SetObject(Py_TYPE(v), v)`), or a
type-plus-message pair (set via `PyErr_SetString`), or some pre-existing
exception raised by unrelated earlier code (opaque, identified by an id). -/
inductive PyExc where
  | excObj (o : PycairoErrorObject)
  | excMsg (ty : PyTypeId) (msg : String)
  | preexisting (id : Nat)
deriving DecidableEq, Repr

/-- The per-thread execution context: the pending-exception slot read by
`PyErr_Occurred` and written by `PyErr_SetObject` / `PyErr_SetString`. -/
structure PyState where
  pending : Option PyExc
deriving DecidableEq, Repr

/-- `error_set_status`: the setter for the `status` attribute.  `value =
none` models the NULL pointer CPython passes on attribute deletion: it is
rejected with a `TypeError` and the object is left unchanged.  A real value
replaces the held reference.  Returns the C return code, the updated
object, and the updated thread state. -/
def error_set_status (self : PycairoErrorObject) (value : Option PyValue)
    (s : PyState) : Int × PycairoErrorObject × PyState :=
  match value with
  | Option.none =>
      let e := PyExc.excMsg PyTypeId.TypeErrorType "Cannot delete attribute"
      (-1, self, { s with pending := some e })
  | some v => (0, { self with status := v }, s)

/-! ### Fallible host-runtime calls -/

/-- Outcome of running a piece of the C code: a normal return, or reaching
undefined behavior (here: dereferencing a NULL pointer). -/
inductive CResult (α : Type) where
  | ok (a : α)
  | undef
deriving DecidableEq, Repr

/-- Environment for the calls into the host runtime that can fail.  Each
flag tells whether the call succeeds; each `..._fail_exc` is the exception
the failing call leaves pending (CPython guarantees a failing C-API call
sets an exception). -/
structure CEnv where
  /-- `PyDict_New` in `error_get_type_combined` succeeds. -/
  dict_new_ok : Bool
  /-- `Py_BuildValue` in `error_get_type_combined` succeeds. -/
  combined_build_value_ok : Bool
  /-- `PyType_Type.tp_new` in `error_get_type_combined` succeeds. -/
  type_new_ok : Bool
  /-- `Py_BuildValue` (including `CREATE_INT_ENUM`) in `set_error` succeeds. -/
  seterr_build_value_ok : Bool
  /-- `PyObject_Call` (exception instantiation) in `set_error` succeeds. -/
  call_ok : Bool
  dict_new_fail_exc : PyExc
  combined_build_value_fail_exc : PyExc
  type_new_fail_exc : PyExc
  call_fail_exc : PyExc
deriving DecidableEq, Repr

/-- All host-runtime calls succeed (no memory exhaustion, no rejected type
construction): the ordinary operating regime. -/
def CEnv.allOk (env : CEnv) : Prop :=
  env.dict_new_ok = true ∧ env.combined_build_value_ok = true ∧
    env.type_new_ok = true ∧ env.seterr_build_value_ok = true ∧
    env.call_ok = true

instance (env : CEnv) : Decidable env.allOk := by
  unfold CEnv.allOk
  infer_instance

/-- A concrete all-successful environment (used for concrete evaluations). -/
def envAllOk : CEnv :=
  { dict_new_ok := true
    combined_build_value_ok := true
    type_new_ok := true
    seterr_build_value_ok := true
    call_ok := true
    dict_new_fail_exc := PyExc.excMsg PyTypeId.MemoryErrorType ""
    combined_build_value_fail_exc := PyExc.excMsg PyTypeId.MemoryErrorType ""
    type_new_fail_exc := PyExc.excMsg PyTypeId.TypeErrorType ""
    call_fail_exc := PyExc.excMsg PyTypeId.MemoryErrorType "" }

/-! ### The translation layer -/

/-- `status_to_string`: like `cairo_status_to_string` (the native
library's code-to-string function, taken as a parameter), but translates
the two messages that reference C function names into messages naming the
Python-level operations. -/
def status_to_string (cairo_status_to_string : Nat → String) (status : Nat) :
    String :=
  if status = CAIRO_STATUS_INVALID_RESTORE then
    "Context.restore() without matching Context.save()"
  else if status = CAIRO_STATUS_INVALID_POP_GROUP then
    "Context.pop_group() without matching Context.push_group()"
  else
    cairo_status_to_string status

/-- `set_error`: builds `args = (status_to_string(status),
CREATE_INT_ENUM(Status, status))`, calls `error_type` on it (for the types
used here tp_init resolves to `error_init` through the MRO), and on success
makes the resulting instance pending via `PyErr_SetObject(Py_TYPE(v), v)`.

The C checks neither `error_type` nor the `Py_BuildValue` result for NULL:
a NULL `error_type` reaches `PyObject_Call` with a NULL callable, and a
failed `Py_BuildValue` reaches `PyObject_Call(error_type, NULL, NULL)` and
`Py_DECREF(NULL)` — both are the `undef` outcome.  When `PyObject_Call`
itself fails, its exception is left pending and `set_error` returns
normally. -/
def set_error (env : CEnv) (cairo_status_to_string : Nat → String)
    (error_type : Option PyTypeId) (status : Nat) (s : PyState) :
    CResult PyState :=
  if env.seterr_build_value_ok then
    let args : List PyValue :=
      [PyValue.str (status_to_string cairo_status_to_string status),
       PyValue.statusEnum status]
    match error_type with
    | Option.none => CResult.undef
    | some ty =>
      if env.call_ok then
        CResult.ok { s with pending := some (PyExc.excObj (error_init ty args)) }
      else
        CResult.ok { s with pending := some env.call_fail_exc }
  else
    CResult.undef

/-- `error_get_type_combined`: synthesizes a new type named `name` whose
bases are exactly `(error, other)` and whose namespace is a fresh empty
dict, via `PyType_Type.tp_new`.  Returns the new type, or `none` with an
exception pending when `PyDict_New`, `Py_BuildValue` or the type
construction fails. -/
def error_get_type_combined (env : CEnv) (error : PyTypeId) (other : PyTypeId)
    (name : String) (s : PyState) : Option PyTypeId × PyState :=
  if env.dict_new_ok then
    if env.combined_build_value_ok then
      if env.type_new_ok then
        (some (PyTypeId.Combined name error other), s)
      else
        (Option.none, { s with pending := some env.type_new_fail_exc })
    else
      (Option.none, { s with pending := some env.combined_build_value_fail_exc })
  else
    (Option.none, { s with pending := some env.dict_new_fail_exc })

/-- `Pycairo_Check_Status`: returns 1 immediately when `PyErr_Occurred()`
reports a pending exception; returns 0 on `CAIRO_STATUS_SUCCESS`; on
`CAIRO_STATUS_NO_MEMORY` combines the library error type
(`_Pycairo_Get_Error()`, i.e. `PycairoError_Type`) with `PyExc_MemoryError`
under the name "MemoryError", raises an instance of it via `set_error`, and
`Py_DECREF`s the combined type; on `CAIRO_STATUS_READ_ERROR` and
`CAIRO_STATUS_WRITE_ERROR` raises `PyExc_IOError` with the native
`cairo_status_to_string` message; otherwise raises the library error type
via `set_error`.  The C never NULL-checks the combined type before handing
it to `set_error` and `Py_DECREF`, so a failed combination is `undef`. -/
def Pycairo_Check_Status (env : CEnv) (cairo_status_to_string : Nat → String)
    (status : Nat) (s : PyState) : CResult (Int × PyState) :=
  if s.pending.isSome then
    CResult.ok (1, s)
  else if status = CAIRO_STATUS_SUCCESS then
    CResult.ok (0, s)
  else if status = CAIRO_STATUS_NO_MEMORY then
    let r := error_get_type_combined env PyTypeId.PycairoErrorType
      PyTypeId.MemoryErrorType "MemoryError" s
    match set_error env cairo_status_to_string r.fst status r.snd with
    | CResult.undef => CResult.undef
    | CResult.ok s2 =>
      match r.fst with
      | Option.none => CResult.undef
      | some _ => CResult.ok (1, s2)
  else if status = CAIRO_STATUS_READ_ERROR ∨ status = CAIRO_STATUS_WRITE_ERROR then
    let e := PyExc.excMsg PyTypeId.IOErrorType (cairo_status_to_string status)
    CResult.ok (1, { s with pending := some e })
  else
    match set_error env cairo_status_to_string (some PyTypeId.PycairoErrorType)
        status s with
    | CResult.undef => CResult.undef
    | CResult.ok s2 => CResult.ok (1, s2)

/-! ### Helper lemmas -/

/-- Instantiating an exception type with a two-element argument tuple
stores the tuple and derives `status` from its second element. -/
theorem error_init_two (ty : PyTypeId) (a b : PyValue) :
    error_init ty [a, b] = { ty := ty, args := [a, b], status := b } := rfl

/-- Instantiating an exception type with a one-element argument tuple
stores the tuple and derives `status = None`. -/
theorem error_init_one (ty : PyTypeId) (a : PyValue) :
    error_init ty [a] = { ty := ty, args := [a], status := PyValue.none } := rfl

/-- Whenever `set_error` returns normally, it has left an exception
pending: either the freshly constructed instance, or the exception set by
the failing `PyObject_Call`. -/
theorem set_error_ok_pending (env : CEnv) (c2s : Nat → String)
    (et : Option PyTypeId) (status : Nat) (s s2 : PyState)
    (h : set_error env c2s et status s = CResult.ok s2) :
    s2.pending.isSome = true := by
  cases et with
  | none => cases hb : env.seterr_build_value_ok <;> simp [set_error, hb] at h
  | some ty =>
    cases hb : env.seterr_build_value_ok with
    | false => simp [set_error, hb] at h
    | true =>
      cases hc : env.call_ok with
      | false =>
        simp [set_error, hb, hc] at h
        subst h
        rfl
      | true =>
        simp [set_error, hb, hc] at h
        subst h
        rfl

/-- Whenever `Pycairo_Check_Status` returns normally on a non-success
status with no prior pending exception, it returns 1 and an exception is
pending afterwards — across every host-runtime environment, including the
ones where allocation or type construction fails. -/
theorem check_status_error_ok_inv (env : CEnv) (c2s : Nat → String)
    (status : Nat) (s : PyState) (r : Int) (s2 : PyState)
    (hp : s.pending = Option.none) (hs : status ≠ CAIRO_STATUS_SUCCESS)
    (hres : Pycairo_Check_Status env c2s status s = CResult.ok (r, s2)) :
    r = 1 ∧ s2.pending.isSome = true := by
  unfold Pycairo_Check_Status at hres
  rw [hp] at hres
  simp only [Option.isSome_none, Bool.false_eq_true, if_false, hs, ite_false] at hres
  by_cases hm : status = CAIRO_STATUS_NO_MEMORY
  · rw [if_pos hm] at hres
    rcases hse : set_error env c2s
        (error_get_type_combined env PyTypeId.PycairoErrorType
          PyTypeId.MemoryErrorType "MemoryError" s).fst
        status
        (error_get_type_combined env PyTypeId.PycairoErrorType
          PyTypeId.MemoryErrorType "MemoryError" s).snd
      with sr | _
    · rw [hse] at hres
      rcases hsub : (error_get_type_combined env PyTypeId.PycairoErrorType
          PyTypeId.MemoryErrorType "MemoryError" s).fst
        with _ | ty
      · rw [hsub] at hres
        cases hres
      · rw [hsub] at hres
        injection hres with hres
        injection hres with h1 h2
        subst h1
        subst h2
        exact ⟨rfl, set_error_ok_pending _ _ _ _ _ _ hse⟩
    · rw [hse] at hres
      cases hres
  · rw [if_neg hm] at hres
    by_cases hrw : status = CAIRO_STATUS_READ_ERROR ∨ status = CAIRO_STATUS_WRITE_ERROR
    · rw [if_pos hrw] at hres
      injection hres with hres
      injection hres with h1 h2
      subst h1
      subst h2
      exact ⟨rfl, rfl⟩
    · rw [if_neg hrw] at hres
      rcases hse : set_error env c2s (some PyTypeId.PycairoErrorType) status
          s with sr | _
      · rw [hse] at hres
        injection hres with hres
        injection hres with h1 h2
        subst h1
        subst h2
        exact ⟨rfl, set_error_ok_pending _ _ _ _ _ _ hse⟩
      · rw [hse] at hres
        cases hres

/-! ### Claim theorems -/

/-- C2: with any exception already pending, `Pycairo_Check_Status` returns
the failure signal 1 for every status code (success included) without
touching the state, so the pending exception afterwards is the very same
one as before. -/
theorem check_status_pending_preserved (env : CEnv)
    (cairo_status_to_string : Nat → String) (status : Nat) (s : PyState)
    (e : PyExc) (h : s.pending = some e) :
    Pycairo_Check_Status env cairo_status_to_string status s =
      CResult.ok (1, s) := by
  unfold Pycairo_Check_Status
  rw [h]
  rfl

theorem check_status_pending_preserved_witness :
    Pycairo_Check_Status envAllOk (fun _ => "") 5
        { pending := some (PyExc.preexisting 7) } =
      CResult.ok (1, { pending := some (PyExc.preexisting 7) }) :=
  check_status_pending_preserved envAllOk (fun _ => "") 5
    { pending := some (PyExc.preexisting 7) } (PyExc.preexisting 7) rfl

/-- C3 (counterexample to the claim as stated): with an exception already
pending, calling the translator with the Success status does NOT return
the no-failure signal with the state unchanged — it returns the failure
signal 1. -/
theorem check_status_success_counterexample :
    Pycairo_Check_Status envAllOk (fun _ => "") CAIRO_STATUS_SUCCESS
        { pending := some (PyExc.preexisting 0) } ≠
      CResult.ok (0, { pending := some (PyExc.preexisting 0) }) := by
  decide

/-- C3 (amended): calling `Pycairo_Check_Status` with the Success status
code always leaves the pending-exception state unchanged; it returns the
no-failure signal 0 when no exception is pending, and the failure signal 1
when one is already pending. -/
theorem check_status_success_noop (env : CEnv)
    (cairo_status_to_string : Nat → String) (s : PyState) :
    Pycairo_Check_Status env cairo_status_to_string CAIRO_STATUS_SUCCESS s =
      CResult.ok ((if s.pending.isSome then (1 : Int) else 0), s) := by
  unfold Pycairo_Check_Status
  cases hp : s.pending with
  | none => simp [hp]
  | some e => simp [hp]

/-- C6: `status_to_string` overrides the descriptions of
`CAIRO_STATUS_INVALID_RESTORE` and `CAIRO_STATUS_INVALID_POP_GROUP` with
messages naming the Python-level `Context.save()`/`Context.restore()` and
`Context.push_group()`/`Context.pop_group()` operations, and maps every
other status code verbatim to `cairo_status_to_string`. -/
theorem status_to_string_overrides (cairo_status_to_string : Nat → String) :
    status_to_string cairo_status_to_string CAIRO_STATUS_INVALID_RESTORE =
        "Context.restore() without matching Context.save()" ∧
    status_to_string cairo_status_to_string CAIRO_STATUS_INVALID_POP_GROUP =
        "Context.pop_group() without matching Context.push_group()" ∧
    ∀ status : Nat, status ≠ CAIRO_STATUS_INVALID_RESTORE →
      status ≠ CAIRO_STATUS_INVALID_POP_GROUP →
      status_to_string cairo_status_to_string status =
        cairo_status_to_string status := by
  refine ⟨rfl, rfl, ?_⟩
  intro status h2 h3
  unfold status_to_string
  rw [if_neg h2, if_neg h3]

theorem status_to_string_overrides_witness :
    status_to_string (fun n => "native " ++ toString n) 10 = "native 10" :=
  (status_to_string_overrides (fun n => "native " ++ toString n)).2.2 10
    (by decide) (by decide)

/-- C7: `error_init` first delegates to the base constructor (which stores
the argument tuple verbatim), then sets `status` to the stored tuple's
second element when it has at least 2 elements and to `None` otherwise; in
particular args `("boom", 42)` yield `status = 42` and args `("boom",)`
yield `status = None`. -/
theorem error_init_derives_status (ty : PyTypeId) (args : List PyValue) :
    (error_init ty args).args = BaseException_init args ∧
    ((BaseException_init args).length ≥ 2 →
      (error_init ty args).status = (BaseException_init args)[1]!) ∧
    ((BaseException_init args).length < 2 →
      (error_init ty args).status = PyValue.none) ∧
    (error_init ty [PyValue.str "boom", PyValue.int 42]).status =
      PyValue.int 42 ∧
    (error_init ty [PyValue.str "boom"]).status = PyValue.none := by
  refine ⟨?_, ?_, ?_, rfl, rfl⟩
  · simp only [error_init]
    split <;> rfl
  · intro h
    simp only [error_init]
    rw [if_pos h]
  · intro h
    simp only [error_init]
    rw [if_neg (by omega)]

theorem error_init_derives_status_witness :
    (error_init PyTypeId.PycairoErrorType
        [PyValue.str "boom", PyValue.int 42]).status =
      (BaseException_init [PyValue.str "boom", PyValue.int 42])[1]! :=
  (error_init_derives_status PyTypeId.PycairoErrorType
    [PyValue.str "boom", PyValue.int 42]).2.1 (by decide)

/-- C8: `error_str` renders an exception whose args tuple has at least one
element as the string form of the first element alone, and falls back to
the base exception's own rendering on an empty args tuple; in particular
an exception constructed with `("boom", 42)` renders as exactly "boom". -/
theorem error_str_message_only (self : PycairoErrorObject) :
    (self.args.length ≥ 1 → error_str self = pyStr self.args[0]!) ∧
    (self.args.length = 0 → error_str self = BaseException_str self.args) ∧
    error_str (error_init PyTypeId.PycairoErrorType
      [PyValue.str "boom", PyValue.int 42]) = "boom" := by
  refine ⟨?_, ?_, rfl⟩
  · intro h
    unfold error_str
    rw [if_pos h]
  · intro h
    unfold error_str
    rw [if_neg (by omega)]

theorem error_str_message_only_witness :
    error_str (error_init PyTypeId.PycairoErrorType
        [PyValue.str "boom", PyValue.int 42]) =
      pyStr (error_init PyTypeId.PycairoErrorType
        [PyValue.str "boom", PyValue.int 42]).args[0]! :=
  (error_str_message_only (error_init PyTypeId.PycairoErrorType
    [PyValue.str "boom", PyValue.int 42])).1 (by decide)

/-- C9: assigning a value to the `status` attribute replaces the held
value and succeeds (return code 0); attempting to delete the attribute
(NULL value) fails with return code -1 and a pending `TypeError`, and
leaves the object — in particular the held `status` value — unchanged. -/
theorem error_set_status_replace_and_reject (self : PycairoErrorObject)
    (v : PyValue) (s : PyState) :
    error_set_status self (some v) s = (0, { self with status := v }, s) ∧
    error_set_status self Option.none s =
      (-1, self, { s with pending := some (PyExc.excMsg PyTypeId.TypeErrorType "Cannot delete attribute") }) :=
  ⟨rfl, rfl⟩

/-- C1: for every status code other than Success with no exception already
pending, `Pycairo_Check_Status` in the ordinary regime (all host-runtime
calls succeed) returns the failure signal 1 and leaves exactly one
exception pending; and in every regime, no failure branch returns without
an exception pending (every normal return carries 1 and a pending
exception). -/
theorem check_status_failure_raises (env : CEnv)
    (cairo_status_to_string : Nat → String) (status : Nat) (s : PyState)
    (hp : s.pending = Option.none) (hs : status ≠ CAIRO_STATUS_SUCCESS) :
    (env.allOk → ∃ e : PyExc,
      Pycairo_Check_Status env cairo_status_to_string status s =
        CResult.ok (1, { pending := some e })) ∧
    ∀ r : Int, ∀ s2 : PyState,
      Pycairo_Check_Status env cairo_status_to_string status s =
        CResult.ok (r, s2) → r = 1 ∧ s2.pending.isSome = true := by
  constructor
  · rintro ⟨h1, h2, h3, h4, h5⟩
    by_cases hm : status = CAIRO_STATUS_NO_MEMORY
    · subst hm
      refine ⟨PyExc.excObj (error_init
          (PyTypeId.Combined "MemoryError" PyTypeId.PycairoErrorType PyTypeId.MemoryErrorType)
          [PyValue.str (status_to_string cairo_status_to_string CAIRO_STATUS_NO_MEMORY),
           PyValue.statusEnum CAIRO_STATUS_NO_MEMORY]), ?_⟩
      simp [Pycairo_Check_Status, error_get_type_combined, set_error, hp,
        h1, h2, h3, h4, h5, CAIRO_STATUS_SUCCESS, CAIRO_STATUS_NO_MEMORY]
    · by_cases hrw : status = CAIRO_STATUS_READ_ERROR ∨ status = CAIRO_STATUS_WRITE_ERROR
      · refine ⟨PyExc.excMsg PyTypeId.IOErrorType (cairo_status_to_string status), ?_⟩
        simp [Pycairo_Check_Status, hp, hs, hm, hrw]
      · refine ⟨PyExc.excObj (error_init PyTypeId.PycairoErrorType
            [PyValue.str (status_to_string cairo_status_to_string status),
             PyValue.statusEnum status]), ?_⟩
        simp [Pycairo_Check_Status, set_error, hp, hs, hm, hrw, h4, h5]
  · exact fun r s2 hres =>
      check_status_error_ok_inv env cairo_status_to_string status s r s2 hp hs hres

theorem check_status_failure_raises_witness :
    ∃ e : PyExc,
      Pycairo_Check_Status envAllOk (fun _ => "") 7 { pending := Option.none } =
        CResult.ok (1, { pending := some e }) :=
  (check_status_failure_raises envAllOk (fun _ => "") 7 { pending := Option.none }
    rfl (by decide)).1 (by decide)

/-- C4: on `CAIRO_STATUS_NO_MEMORY` with no pending exception (ordinary
regime), the raised exception is an instance of the type synthesized with
exactly the two bases `PycairoError_Type` and `PyExc_MemoryError`,
instantiated with `(describe(status), status)` — its `status` field is the
wrapped status code — and that type is a subtype of both the library's
base exception type and the host's memory-error type. -/
theorem check_status_no_memory_combined (env : CEnv)
    (cairo_status_to_string : Nat → String) (s : PyState)
    (henv : env.allOk) (hp : s.pending = Option.none) :
    Pycairo_Check_Status env cairo_status_to_string CAIRO_STATUS_NO_MEMORY s =
      CResult.ok (1, { pending := some (PyExc.excObj
        { ty := PyTypeId.Combined "MemoryError" PyTypeId.PycairoErrorType PyTypeId.MemoryErrorType,
          args := [PyValue.str (status_to_string cairo_status_to_string CAIRO_STATUS_NO_MEMORY),
                     PyValue.statusEnum CAIRO_STATUS_NO_MEMORY],
          status := PyValue.statusEnum CAIRO_STATUS_NO_MEMORY }) }) ∧
    isSubtype (PyTypeId.Combined "MemoryError" PyTypeId.PycairoErrorType PyTypeId.MemoryErrorType)
        PyTypeId.PycairoErrorType = true ∧
    isSubtype (PyTypeId.Combined "MemoryError" PyTypeId.PycairoErrorType PyTypeId.MemoryErrorType)
        PyTypeId.MemoryErrorType = true := by
  obtain ⟨h1, h2, h3, h4, h5⟩ := henv
  refine ⟨?_, by decide, by decide⟩
  simp [Pycairo_Check_Status, error_get_type_combined, set_error, error_init_two,
    hp, h1, h2, h3, h4, h5, CAIRO_STATUS_SUCCESS, CAIRO_STATUS_NO_MEMORY]

theorem check_status_no_memory_combined_witness :
    Pycairo_Check_Status envAllOk (fun _ => "oom") CAIRO_STATUS_NO_MEMORY
        { pending := Option.none } =
      CResult.ok (1, { pending := some (PyExc.excObj
        { ty := PyTypeId.Combined "MemoryError" PyTypeId.PycairoErrorType PyTypeId.MemoryErrorType,
          args := [PyValue.str (status_to_string (fun _ => "oom") CAIRO_STATUS_NO_MEMORY),
                     PyValue.statusEnum CAIRO_STATUS_NO_MEMORY],
          status := PyValue.statusEnum CAIRO_STATUS_NO_MEMORY }) }) ∧
    isSubtype (PyTypeId.Combined "MemoryError" PyTypeId.PycairoErrorType PyTypeId.MemoryErrorType)
        PyTypeId.PycairoErrorType = true ∧
    isSubtype (PyTypeId.Combined "MemoryError" PyTypeId.PycairoErrorType PyTypeId.MemoryErrorType)
        PyTypeId.MemoryErrorType = true :=
  check_status_no_memory_combined envAllOk (fun _ => "oom")
    { pending := Option.none } (by decide) rfl

/-- C5: on `CAIRO_STATUS_READ_ERROR` or `CAIRO_STATUS_WRITE_ERROR` with no
pending exception, the raised exception is a plain `PyExc_IOError` carrying
the native `cairo_status_to_string` description for that code (not the
binding's overridden description), and `PyExc_IOError` is not a subtype of
the library's own exception type. -/
theorem check_status_io_error_plain (env : CEnv)
    (cairo_status_to_string : Nat → String) (status : Nat) (s : PyState)
    (hst : status = CAIRO_STATUS_READ_ERROR ∨ status = CAIRO_STATUS_WRITE_ERROR)
    (hp : s.pending = Option.none) :
    Pycairo_Check_Status env cairo_status_to_string status s =
      CResult.ok (1, { pending := some (PyExc.excMsg PyTypeId.IOErrorType (cairo_status_to_string status)) }) ∧
    isSubtype PyTypeId.IOErrorType PyTypeId.PycairoErrorType = false := by
  refine ⟨?_, by decide⟩
  have h0 : status ≠ CAIRO_STATUS_SUCCESS := by
    rcases hst with h | h <;> subst h <;> decide
  have h1 : status ≠ CAIRO_STATUS_NO_MEMORY := by
    rcases hst with h | h <;> subst h <;> decide
  simp [Pycairo_Check_Status, hp, h0, h1, hst]

theorem check_status_io_error_plain_witness :
    Pycairo_Check_Status envAllOk (fun n => "native " ++ toString n)
        CAIRO_STATUS_READ_ERROR { pending := Option.none } =
      CResult.ok (1, { pending := some (PyExc.excMsg PyTypeId.IOErrorType ((fun n => "native " ++ toString n) CAIRO_STATUS_READ_ERROR)) }) ∧
    isSubtype PyTypeId.IOErrorType PyTypeId.PycairoErrorType = false :=
  check_status_io_error_plain envAllOk (fun n => "native " ++ toString n)
    CAIRO_STATUS_READ_ERROR { pending := Option.none } (Or.inl rfl) rfl

/-- C10 (failing input for the claim): on `CAIRO_STATUS_NO_MEMORY` with no
pending exception, when synthesizing the combined exception type fails
(here `PyDict_New` fails and `error_get_type_combined` returns NULL with
an exception set), the failure does NOT propagate to the caller: the
unchecked NULL reaches `PyObject_Call` and `Py_DECREF`, i.e. undefined
behavior.  By contrast, when only the exception-object construction
(`PyObject_Call`) fails, that failure does propagate as-is. -/
theorem check_status_combiner_failure_undef :
    Pycairo_Check_Status { envAllOk with dict_new_ok := false } (fun _ => "oom")
        CAIRO_STATUS_NO_MEMORY { pending := Option.none } = CResult.undef ∧
    Pycairo_Check_Status { envAllOk with call_ok := false } (fun _ => "oom")
        CAIRO_STATUS_NO_MEMORY { pending := Option.none } =
      CResult.ok (1, { pending := some envAllOk.call_fail_exc }) := by
  decide

end PycairoSpec
